import Mathlib

/-!
Shallow embedding of `src/machines/machine.rs` from the forrest repository:
the machine lifecycle state machine and its resource-aware operations.

Modelling conventions:
* `Instant` timestamps are `Nat` (an abstract clock value passed in as `now`).
* `u64` / `u32` values are `Nat`; the only literal that matters is
  `u32::MAX = 4294967295` in `cost_to_kill`.
* The Rust `Mutex<Inner>` is dropped: operations are pure state transformers
  on the `Inner` record (single-threaded view of the locked section).
* A Rust `assert_eq!` failure or `unwrap` panic is modelled as `none` of an
  `Option` result (or a `panicked` outcome constructor).
* A call that never returns is modelled as a `stuck` outcome carrying the
  machine state at the blocking point: `spawn` calls `kill`, and `kill`
  re-acquires the `inner` mutex that `spawn`'s caller `reschedule` already
  holds on the same thread; a re-entrant `std::sync::Mutex::lock` never
  returns normally (it deadlocks or panics), so the code after that call
  never executes.
* The `Rescheduler` capability (a callback into the fleet manager) and the
  random runner-name generation are external effects: the rescheduler field
  is omitted and the 16-character random suffix is an explicit argument.
* The `HashMap`s of the configuration snapshot are association lists looked
  up with `List.lookup`.
-/

namespace Forrest

/-- The eight lifecycle states of a machine (`enum Status`). -/
inductive Status where
  | Requested
  | Registering
  | Registered
  | Starting
  | Waiting
  | Running
  | Stopping
  | Stopped
deriving DecidableEq, Repr

/-- The mutable part of `Machine`, guarded by the mutex in the source
(`struct Inner { started: Option<Instant>, status: Status }`). -/
structure Inner where
  started : Option Nat
  status : Status
deriving DecidableEq, Repr

/-- Per-machine-class configuration; `ram` is `ram.bytes()` of the source's
`MachineConfig` (a `u64` byte count). -/
structure MachineConfig where
  ram : Nat
deriving DecidableEq, Repr

/-- A repository's configuration: its map of machine-class names. -/
structure RepoConfig where
  machines : List (String × MachineConfig)
deriving DecidableEq, Repr

/-- The configuration snapshot (`ConfigFile`): owner → repository → config. -/
structure ConfigFile where
  repositories : List (String × List (String × RepoConfig))
deriving DecidableEq, Repr

/-- The (owner, repository, machine name) identity triplet. -/
structure Triplet where
  owner : String
  repository : String
  machine_name : String
deriving DecidableEq, Repr

/-- The nested lookup performed both in `Machine::new` and in
`Machine::machine_config`:
`cfg.repositories.get(owner).and_then(|r| r.get(repo)).and_then(|r| r.machines.get(name))`. -/
def lookupMachineConfig (cfg : ConfigFile) (t : Triplet) : Option MachineConfig :=
  ((cfg.repositories.lookup t.owner).bind fun repos =>
    repos.lookup t.repository).bind fun repo =>
    repo.machines.lookup t.machine_name

/-- A machine (`struct Machine`), without the omitted `rescheduler` field. -/
structure Machine where
  cfg : ConfigFile
  triplet : Triplet
  runnerName : String
  inner : Inner
deriving DecidableEq, Repr

/-- `Machine::new`: returns `none` when the triplet has no configuration
entry ("Got request for unknown machine triplet"); otherwise a machine in
`Requested` state with no start timestamp and a runner name
`forrest-<machine name>-<suffix>` (the source draws `suffix` as 16 random
alphanumeric characters). -/
def Machine.new (cfg : ConfigFile) (t : Triplet) (suffix : String) : Option Machine :=
  match lookupMachineConfig cfg t with
  | none => none
  | some _ =>
    some { cfg := cfg
           triplet := t
           runnerName := "forrest-" ++ t.machine_name ++ "-" ++ suffix
           inner := { status := Status.Requested, started := none } }

/-- `Machine::machine_config` before its final `unwrap`: the same nested
lookup against the snapshot cached at creation. The source unwraps the
result; the `none` case is the unwrap panic. -/
def Machine.machine_config (m : Machine) : Option MachineConfig :=
  lookupMachineConfig m.cfg m.triplet

/-- `Machine::ram_required`: `machine_config().ram.bytes()`. The `none`
branch is the source's unwrap panic path (shown unreachable for machines
built by `Machine.new`). -/
def Machine.ram_required (m : Machine) : Nat :=
  match m.machine_config with
  | some c => c.ram
  | none => 0

/-- `Machine::ram_consumed`: 0 before launch and after teardown, the full
requirement from `Starting` through `Stopping`. -/
def Machine.ram_consumed (m : Machine) : Nat :=
  match m.inner.status with
  | Status.Requested | Status.Registering | Status.Registered | Status.Stopped => 0
  | Status.Starting | Status.Waiting | Status.Running | Status.Stopping => m.ram_required

/-- `Machine::cost_to_kill` as a function of the status it reads from
`inner`; `4294967295` is `u32::MAX`. -/
def cost_to_kill (s : Status) : Nat :=
  match s with
  | Status.Requested => 0
  | Status.Registering => 1
  | Status.Registered => 2
  | Status.Starting => 3
  | Status.Waiting => 4
  | Status.Running | Status.Stopping | Status.Stopped => 4294967295

/-- `Machine::register`: asserts `status == Requested` (the `none` case is
the assertion failure), passes through the transient `Registering` state and
ends in `Registered`; `started` is untouched. -/
def register (i : Inner) : Option Inner :=
  if i.status = Status.Requested then
    some { i with status := Status.Registered }
  else
    none

/-- `Machine::kill` on the inner state: unconditionally set `Stopped`. -/
def kill (i : Inner) : Inner :=
  { i with status := Status.Stopped }

/-- The initiation step of `Machine::spawn`: set `Starting` and record
`started = Some(Instant::now())`. -/
def spawnInit (now : Nat) (i : Inner) : Inner :=
  { i with status := Status.Starting, started := some now }

/-- How a call to `Machine::spawn` ends: it never returns normally. -/
inductive SpawnResult where
  | stuck (inner : Inner)
  | panicked
deriving DecidableEq, Repr

/-- `Machine::spawn`: asserts `status == Registered` (`panicked` is the
assertion failure), then initiates the launch (`spawnInit`: status
`Starting`, `started = Some(now)`). It then calls `self.kill()`, but `kill`
starts by re-acquiring the `inner` mutex while `spawn`'s caller — its only
caller is `reschedule`, whose `&mut Inner` argument comes out of the guard
it holds — still holds it on the same thread, so the call never returns:
`stuck` carries the machine state left behind at the blocking point.
Everything after the `kill` call (the stub's own intended transition to
`Stopped` inside `kill` and the trailing `rescheduler.reschedule()`) is
unreachable. -/
def spawn (now : Nat) (i : Inner) : SpawnResult :=
  if i.status = Status.Registered then
    SpawnResult.stuck (spawnInit now i)
  else
    SpawnResult.panicked

/-- `Machine::kill` on the whole machine record. -/
def Machine.kill (m : Machine) : Machine :=
  { m with inner := Forrest.kill m.inner }

/-- `Machine::status_feedback` as a function of the current status and the
feedback pair; the arms are the source's match arms in source order (Rust
and Lean both take the first matching arm). -/
def status_feedback (s : Status) (online : Option Bool) (busy : Bool) : Status :=
  match s, online, busy with
  | Status.Requested, _, _ => Status.Requested
  | Status.Registering, _, _ => Status.Registering
  | Status.Registered, _, _ => Status.Registered
  | Status.Starting, some false, _ | Status.Starting, none, _ => Status.Starting
  | Status.Waiting, some true, false | Status.Waiting, none, false => Status.Waiting
  | Status.Running, some true, true | Status.Running, none, true => Status.Running
  | Status.Stopping, _, _ => Status.Stopping
  | Status.Stopped, _, _ => Status.Stopped
  | Status.Starting, some true, false => Status.Waiting
  | Status.Starting, _, true | Status.Waiting, _, true => Status.Running
  | Status.Waiting, some false, _ | Status.Running, some false, _
  | Status.Running, _, false => Status.Stopping

/-- `Machine::status_feedback` on the whole machine record: only
`inner.status` is (possibly) written. -/
def Machine.status_feedback (m : Machine) (online : Option Bool) (busy : Bool) : Machine :=
  { m with inner := { m.inner with status := Forrest.status_feedback m.inner.status online busy } }

/-- How a call to `Machine::reschedule` ends: a normal return with the
updated machine and `ram_available` counter, a non-returning call (`stuck`,
with the machine state at the blocking point), or an assertion failure. -/
inductive RescheduleResult where
  | ok (machine : Machine) (ram_available : Nat)
  | stuck (machine : Machine)
  | panicked
deriving DecidableEq, Repr

/-- `Machine::reschedule(ram_available)`: `Requested` machines are
registered (no budget check), over-budget `Registered` machines are
postponed unchanged, and every other state is a no-op. A `Registered`
machine within budget (`ram_required <= ram_available`) enters `spawn`,
which never returns (see `spawn`), so the call gets stuck with the machine
in `Starting`; the source's decrement of `ram_available` after the `spawn`
call is dead code and appears in no outcome. -/
def Machine.reschedule (now : Nat) (m : Machine) (ram_available : Nat) : RescheduleResult :=
  match m.inner.status with
  | Status.Requested =>
    match register m.inner with
    | some i => RescheduleResult.ok { m with inner := i } ram_available
    | none => RescheduleResult.panicked
  | Status.Registered =>
    let rr := m.ram_required
    if rr > ram_available then
      RescheduleResult.ok m ram_available
    else
      match spawn now m.inner with
      | SpawnResult.stuck i => RescheduleResult.stuck { m with inner := i }
      | SpawnResult.panicked => RescheduleResult.panicked
  | _ => RescheduleResult.ok m ram_available

/-- Modelled from the spec: the transition table of section 4.2, rows taken
in the order the spec lists them with first-match precedence (pre-launch
rows, terminal rows, then the Starting/Waiting/Running rows top to
bottom). -/
def spec_feedback_table (s : Status) (online : Option Bool) (busy : Bool) : Status :=
  match s with
  | Status.Requested | Status.Registering | Status.Registered => s
  | Status.Stopping | Status.Stopped => s
  | Status.Starting =>
    match online, busy with
    | some false, _ | none, _ => Status.Starting
    | some true, false => Status.Waiting
    | some true, true => Status.Running
  | Status.Waiting =>
    match online, busy with
    | _, true => Status.Running
    | some true, false | none, false => Status.Waiting
    | some false, false => Status.Stopping
  | Status.Running =>
    match online, busy with
    | some true, true | none, true => Status.Running
    | some false, _ => Status.Stopping
    | _, false => Status.Stopping

/-! Concrete fixtures used by witnesses and counterexamples. -/

/-- A configuration snapshot with one machine class needing 4 bytes of RAM. -/
def cfgEx : ConfigFile :=
  { repositories := [("acme", [("widgets", { machines := [("builder", { ram := 4 })] })])] }

/-- The triplet naming the machine class of `cfgEx`. -/
def tripEx : Triplet :=
  { owner := "acme", repository := "widgets", machine_name := "builder" }

/-- The machine `Machine.new cfgEx tripEx "s"` produces. -/
def mEx : Machine :=
  { cfg := cfgEx
    triplet := tripEx
    runnerName := "forrest-" ++ tripEx.machine_name ++ "-" ++ "s"
    inner := { status := Status.Requested, started := none } }

/-- `mEx` after its registration succeeded. -/
def mReg : Machine :=
  { mEx with inner := { mEx.inner with status := Status.Registered } }

/-- A configuration snapshot whose machine class requires 0 bytes of RAM
(`ram` is an unconstrained `u64` in the source). -/
def cfgZero : ConfigFile :=
  { repositories := [("acme", [("widgets", { machines := [("builder", { ram := 0 })] })])] }

/-- A zero-RAM machine in the `Starting` state `spawn` passes through. -/
def mZeroStart : Machine :=
  { cfg := cfgZero
    triplet := tripEx
    runnerName := "forrest-" ++ tripEx.machine_name ++ "-" ++ "z"
    inner := spawnInit 5 { status := Status.Registered, started := none } }

/-! Theorems about the embedded operations. -/

/-- C1 (amended): `status_feedback` computes exactly the section 4.2 table
read with first-match (top to bottom) precedence. In particular a machine
in `Starting` with `online` false or unknown stays `Starting` even when
`busy = true`; a `Starting` machine with `online = true` and `busy = true`,
and a `Waiting` machine with `busy = true` for every `online` value, move to
`Running`; pre-launch states (`Requested`, `Registering`, `Registered`) and
terminal states (`Stopping`, `Stopped`) are unchanged by every feedback
input. -/
theorem status_feedback_eq_spec_table :
    ∀ (s : Status) (online : Option Bool) (busy : Bool),
      status_feedback s online busy = spec_feedback_table s online busy := by
  intro s o b
  cases s <;> rcases o with _ | (_ | _) <;> cases b <;> rfl

/-- C1 counterexample: a machine in `Starting` that receives
`online = some false, busy = true` stays in `Starting` and does not move to
`Running`, refuting "busy = true moves to Running regardless of the online
value". -/
theorem status_feedback_starting_not_running :
    status_feedback Status.Starting (some false) true = Status.Starting ∧
      status_feedback Status.Starting (some false) true ≠ Status.Running := by
  exact ⟨rfl, by decide⟩

/-- C9: `cost_to_kill` takes the values 0, 1, 2, 3, 4 strictly increasing
along `Requested < Registering < Registered < Starting < Waiting`, and the
maximum representable `u32` value `2 ^ 32 - 1` on `Running`, `Stopping` and
`Stopped`. -/
theorem cost_to_kill_spec :
    cost_to_kill Status.Requested = 0 ∧
    cost_to_kill Status.Registering = 1 ∧
    cost_to_kill Status.Registered = 2 ∧
    cost_to_kill Status.Starting = 3 ∧
    cost_to_kill Status.Waiting = 4 ∧
    cost_to_kill Status.Requested < cost_to_kill Status.Registering ∧
    cost_to_kill Status.Registering < cost_to_kill Status.Registered ∧
    cost_to_kill Status.Registered < cost_to_kill Status.Starting ∧
    cost_to_kill Status.Starting < cost_to_kill Status.Waiting ∧
    cost_to_kill Status.Running = 2 ^ 32 - 1 ∧
    cost_to_kill Status.Stopping = 2 ^ 32 - 1 ∧
    cost_to_kill Status.Stopped = 2 ^ 32 - 1 := by
  decide

/-- C5: `kill` on any machine sets the status to `Stopped`, drives
`ram_consumed` to 0, and is idempotent. -/
theorem kill_stops_and_idempotent (m : Machine) :
    m.kill.inner.status = Status.Stopped ∧
    m.kill.ram_consumed = 0 ∧
    m.kill.kill = m.kill := by
  exact ⟨rfl, rfl, rfl⟩

/-- C10: `status_feedback` writes at most `inner.status`: the start
timestamp, runner name, triplet and config snapshot of the machine are
unchanged for every feedback input. -/
theorem status_feedback_frame (m : Machine) (online : Option Bool) (busy : Bool) :
    (m.status_feedback online busy).inner.started = m.inner.started ∧
    (m.status_feedback online busy).runnerName = m.runnerName ∧
    (m.status_feedback online busy).triplet = m.triplet ∧
    (m.status_feedback online busy).cfg = m.cfg := by
  exact ⟨rfl, rfl, rfl, rfl⟩

/-- C2 (code bug): evaluating the code at the failing input — the
`Registered` machine `mReg` (4 bytes required) rescheduled with 10 bytes
available at `now = 7` — the pass reaches `spawn`, which records
`started = some 7` and status `Starting` and then blocks forever
re-acquiring the held mutex inside `kill`: the call never returns, so
"after spawn" never happens and the machine is left stuck in `Starting`. -/
theorem spawn_never_returns :
    Machine.reschedule 7 mReg 10 =
      RescheduleResult.stuck
        { mReg with inner := { started := some 7, status := Status.Starting } } := by
  rfl

/-- C3 (code bug): evaluating the code at the failing input — `mReg`
(4 bytes required) with 5 bytes available — the within-budget spawn branch
gets stuck inside `spawn` and yields no updated counter, the decrement
after the `spawn` call being dead code; over budget (3 bytes available) the
pass returns with the machine and the counter unchanged, as the claim
states. -/
theorem reschedule_spawn_branch_stuck :
    Machine.reschedule 0 mReg 5 =
      RescheduleResult.stuck
        { mReg with inner := { started := some 0, status := Status.Starting } } ∧
    Machine.reschedule 0 mReg 3 = RescheduleResult.ok mReg 3 := by
  exact ⟨rfl, rfl⟩

/-- C4 (amended): `ram_consumed` equals `ram_required` exactly in
`{Starting, Waiting, Running, Stopping}` and 0 in
`{Requested, Registering, Registered, Stopped}`; hence it is nonzero iff
the status is in the former range and `ram_required` itself is nonzero (a
machine class may require 0 bytes, in which case `ram_consumed` is 0 in
every state). -/
theorem ram_consumed_spec (m : Machine) :
    ((m.inner.status = Status.Starting ∨ m.inner.status = Status.Waiting ∨
      m.inner.status = Status.Running ∨ m.inner.status = Status.Stopping) →
      m.ram_consumed = m.ram_required) ∧
    ((m.inner.status = Status.Requested ∨ m.inner.status = Status.Registering ∨
      m.inner.status = Status.Registered ∨ m.inner.status = Status.Stopped) →
      m.ram_consumed = 0) ∧
    (m.ram_consumed ≠ 0 ↔
      ((m.inner.status = Status.Starting ∨ m.inner.status = Status.Waiting ∨
        m.inner.status = Status.Running ∨ m.inner.status = Status.Stopping) ∧
        m.ram_required ≠ 0)) := by
  cases hst : m.inner.status <;> simp [Machine.ram_consumed, hst]

/-- Witness for C4's amended theorem at the concrete machine `mReg`. -/
theorem ram_consumed_spec_witness : mReg.ram_consumed = 0 :=
  (ram_consumed_spec mReg).2.1 (Or.inr (Or.inr (Or.inl rfl)))

/-- C4 counterexample: the zero-RAM machine `mZeroStart` is in `Starting`
yet `ram_consumed` is 0, refuting "`ram_consumed` is nonzero iff the status
is in {Starting, Waiting, Running, Stopping}". -/
theorem ram_consumed_zero_while_starting :
    mZeroStart.inner.status = Status.Starting ∧ mZeroStart.ram_consumed = 0 := by
  exact ⟨rfl, rfl⟩

/-- Every outcome of `reschedule` — a normal return or the machine left
behind by a stuck call — carries either the machine itself or the machine
with only `inner` replaced, so the config snapshot and the triplet survive
the call. -/
theorem reschedule_keeps_identity (now : Nat) (m : Machine) (ram : Nat) :
    (∀ (mo : Machine) (r : Nat),
      Machine.reschedule now m ram = RescheduleResult.ok mo r →
        mo.cfg = m.cfg ∧ mo.triplet = m.triplet) ∧
    (∀ mo : Machine,
      Machine.reschedule now m ram = RescheduleResult.stuck mo →
        mo.cfg = m.cfg ∧ mo.triplet = m.triplet) := by
  constructor
  · intro mo r h
    cases hst : m.inner.status <;>
      simp [Machine.reschedule, hst, register, spawn, spawnInit] at h
    all_goals first
      | (obtain ⟨rfl, rfl⟩ := h; exact ⟨rfl, rfl⟩)
      | (rcases Nat.lt_or_ge ram m.ram_required with hlt | hge
         · rw [if_pos hlt] at h
           cases h
           exact ⟨rfl, rfl⟩
         · rw [if_neg (Nat.not_lt.mpr hge)] at h
           cases h)
  · intro mo h
    cases hst : m.inner.status <;>
      simp [Machine.reschedule, hst, register, spawn, spawnInit] at h
    rcases Nat.lt_or_ge ram m.ram_required with hlt | hge
    · rw [if_pos hlt] at h
      cases h
    · rw [if_neg (Nat.not_lt.mpr hge)] at h
      cases h
      exact ⟨rfl, rfl⟩

/-- C6: for every machine produced by `Machine.new`, the cached config
lookup succeeds (`isSome`), and every lifecycle operation —
`status_feedback`, `kill` and `reschedule` — leaves `machine_config`
unchanged, so the unwrap panic in the source's `machine_config`/
`ram_required` is unreachable for the machine's whole life. -/
theorem machine_config_stable (cfg : ConfigFile) (t : Triplet) (suffix : String) (m : Machine)
    (h : Machine.new cfg t suffix = some m) :
    m.machine_config.isSome = true ∧
    (∀ (online : Option Bool) (busy : Bool),
      (m.status_feedback online busy).machine_config = m.machine_config) ∧
    m.kill.machine_config = m.machine_config ∧
    (∀ (now ram : Nat) (mo : Machine) (r : Nat),
      Machine.reschedule now m ram = RescheduleResult.ok mo r →
        mo.machine_config = m.machine_config) ∧
    (∀ (now ram : Nat) (mo : Machine),
      Machine.reschedule now m ram = RescheduleResult.stuck mo →
        mo.machine_config = m.machine_config) := by
  refine ⟨?_, fun _ _ => rfl, rfl, ?_, ?_⟩
  · cases hl : lookupMachineConfig cfg t
    · simp [Machine.new, hl] at h
    · simp [Machine.new, hl] at h
      cases h
      simp [Machine.machine_config, hl]
  · intro now ram mo r hout
    obtain ⟨hc, ht⟩ := (reschedule_keeps_identity now m ram).1 mo r hout
    simp [Machine.machine_config, hc, ht]
  · intro now ram mo hout
    obtain ⟨hc, ht⟩ := (reschedule_keeps_identity now m ram).2 mo hout
    simp [Machine.machine_config, hc, ht]

/-- Witness for C6 at the concrete machine `mEx = Machine.new cfgEx tripEx "s"`. -/
theorem machine_config_stable_witness : mEx.machine_config.isSome = true :=
  (machine_config_stable cfgEx tripEx "s" mEx (by rfl)).1

/-- C7: `register` succeeds exactly under its precondition
`status = Requested`, ending in `Registered` with `started` untouched; in
any other status the assertion fails (`none`) and no state is changed; and
`reschedule`, which is the only caller, invokes it only on `Requested`
machines, where the assertion provably never fires. -/
theorem register_correct :
    (∀ i : Inner, i.status = Status.Requested →
      register i = some { i with status := Status.Registered }) ∧
    (∀ i : Inner, i.status ≠ Status.Requested → register i = none) ∧
    (∀ (now : Nat) (m : Machine) (ram : Nat), m.inner.status = Status.Requested →
      Machine.reschedule now m ram =
        RescheduleResult.ok { m with inner := { m.inner with status := Status.Registered } }
          ram) := by
  refine ⟨fun i h => by simp [register, h], fun i h => by simp [register, h],
    fun now m ram h => ?_⟩
  simp [Machine.reschedule, h, register]

/-- Witness for C7: registering a fresh `Requested` inner state yields
`Registered`, and registering a `Stopped` one is the assertion failure. -/
theorem register_correct_witness :
    register { started := none, status := Status.Requested } =
      some { started := none, status := Status.Registered } ∧
    register { started := none, status := Status.Stopped } = none :=
  ⟨register_correct.1 { started := none, status := Status.Requested } rfl,
    register_correct.2.1 { started := none, status := Status.Stopped } (by decide)⟩

/-- C8: `Machine.new` returns `none` exactly when the triplet has no entry
in the snapshot, and any machine it does return starts in `Requested` with
no start timestamp. -/
theorem new_machine_spec (cfg : ConfigFile) (t : Triplet) (suffix : String) :
    (Machine.new cfg t suffix = none ↔ lookupMachineConfig cfg t = none) ∧
    (∀ m, Machine.new cfg t suffix = some m →
      m.inner.status = Status.Requested ∧ m.inner.started = none) := by
  refine ⟨?_, ?_⟩
  · cases hl : lookupMachineConfig cfg t <;> simp [Machine.new, hl]
  · intro m hm
    cases hl : lookupMachineConfig cfg t
    · simp [Machine.new, hl] at hm
    · simp [Machine.new, hl] at hm
      cases hm
      exact ⟨rfl, rfl⟩

/-- Witness for C8 at the concrete snapshot `cfgEx`: the known triplet
yields `mEx` in `Requested` with no timestamp. -/
theorem new_machine_spec_witness :
    mEx.inner.status = Status.Requested ∧ mEx.inner.started = none :=
  (new_machine_spec cfgEx tripEx "s").2 mEx (by rfl)

end Forrest
